import Mathlib

/-!
Verification development for the datacake-rpc dispatch core
(src/datacake-rpc/src/lib.rs and src/datacake-rpc/src/handler.rs).

Rust strings are modelled as lists of characters (`Str`), bytes as natural
numbers taken modulo 256 where the byte width matters, and 64-bit machine
integers as natural numbers with explicit reduction modulo 2^64 at every
operation that can exceed the width.
-/

namespace Datacake

/-- Rust `String` / `&str`, modelled as a list of unicode scalar values. -/
abbrev Str := List Char

/-- From lib.rs: `fn sanitise(parameter: &str) -> String { parameter.replace(['<', '>'], "-") }`.
`str::replace` with a char-slice pattern substitutes the string `"-"` for every
occurrence of a matching character; each non-matching character is copied through. -/
def sanitise (parameter : Str) : Str :=
  (parameter.map (fun c => if c = '<' ∨ c = '>' then ['-'] else [c])).flatten

/-- From lib.rs: `fn to_uri_path(service: &str, path: &str) -> String`,
which is `format!("/{}/{}", sanitise(service), sanitise(path))`. -/
def to_uri_path (service : Str) (path : Str) : Str :=
  ('/' :: sanitise service) ++ ('/' :: sanitise path)

/-- UTF-8 encoding of one unicode scalar value (the byte sequence Rust stores
for a `char` inside a `String`). -/
def utf8Bytes (c : Char) : List Nat :=
  let n := c.toNat
  if n < 0x80 then [n]
  else if n < 0x800 then
    [0xC0 ||| (n >>> 6), 0x80 ||| (n &&& 0x3F)]
  else if n < 0x10000 then
    [0xE0 ||| (n >>> 12), 0x80 ||| ((n >>> 6) &&& 0x3F), 0x80 ||| (n &&& 0x3F)]
  else
    [0xF0 ||| (n >>> 18), 0x80 ||| ((n >>> 12) &&& 0x3F),
     0x80 ||| ((n >>> 6) &&& 0x3F), 0x80 ||| (n &&& 0x3F)]

/-- The UTF-8 byte stream of a string. -/
def strBytes (s : Str) : List Nat :=
  (s.map utf8Bytes).flatten

/-- State of the SipHash hasher behind `std::collections::hash_map::DefaultHasher`:
four 64-bit lanes. -/
structure SipState where
  v0 : Nat
  v1 : Nat
  v2 : Nat
  v3 : Nat

/-- 64-bit addition: `u64::wrapping_add`. -/
def add64 (x y : Nat) : Nat := (x + y) % 2 ^ 64

/-- 64-bit left rotation: `u64::rotate_left`. -/
def rotl64 (x r : Nat) : Nat := ((x <<< r) % 2 ^ 64) ||| (x >>> (64 - r))

/-- One SipHash round (the `compress!` macro of Rust's `core::hash::sip`). -/
def sipRound (s : SipState) : SipState :=
  let v0 := add64 s.v0 s.v1
  let v1 := rotl64 s.v1 13
  let v1 := v1 ^^^ v0
  let v0 := rotl64 v0 32
  let v2 := add64 s.v2 s.v3
  let v3 := rotl64 s.v3 16
  let v3 := v3 ^^^ v2
  let v0 := add64 v0 v3
  let v3 := rotl64 v3 21
  let v3 := v3 ^^^ v0
  let v2 := add64 v2 v1
  let v1 := rotl64 v1 17
  let v1 := v1 ^^^ v2
  let v2 := rotl64 v2 32
  ⟨v0, v1, v2, v3⟩

/-- Absorb one 64-bit message word; `SipHasher13` runs one compression round
per word (`c_rounds` = one round). -/
def sipCompress (st : SipState) (m : Nat) : SipState :=
  let st1 : SipState := { st with v3 := st.v3 ^^^ m }
  let st2 := sipRound st1
  { st2 with v0 := st2.v0 ^^^ m }

/-- Assemble up to eight bytes into a little-endian 64-bit word
(`u8to64_le` in Rust's sip.rs); each byte is a `u8`, the result a `u64`. -/
def le64 (bs : List Nat) : Nat :=
  (bs.foldr (fun b acc => b % 256 + 256 * acc) 0) % 2 ^ 64

/-- The `finish()` step of `SipHasher13`: the last word carries the low byte of
the total length in its top byte next to the up-to-seven tail bytes, `v2` is
xored with 0xff, three finalization rounds (`d_rounds`) run, and the four
lanes are xored together. -/
def sipFinish (st : SipState) (len : Nat) (rest : List Nat) : Nat :=
  let b := (((len % 256) <<< 56) ||| le64 rest) % 2 ^ 64
  let st1 := sipCompress st b
  let st2 : SipState := { st1 with v2 := st1.v2 ^^^ 0xff }
  let st3 := sipRound (sipRound (sipRound st2))
  (st3.v0 ^^^ st3.v1) ^^^ (st3.v2 ^^^ st3.v3)

/-- Consume the byte stream eight bytes at a time, then finish on the tail. -/
def sipBlocks (st : SipState) (len : Nat) : List Nat → Nat
  | b0 :: b1 :: b2 :: b3 :: b4 :: b5 :: b6 :: b7 :: rest =>
      sipBlocks (sipCompress st (le64 [b0, b1, b2, b3, b4, b5, b6, b7])) len rest
  | rest => sipFinish st len rest

/-- `DefaultHasher::new()` is `SipHasher13::new_with_keys(0, 0)`: the two keys
are the fixed constants 0 and 0; there is no randomized seed. -/
def hashBytes (bs : List Nat) : Nat :=
  let k0 : Nat := 0
  let k1 : Nat := 0
  let st : SipState :=
    ⟨k0 ^^^ 0x736f6d6570736575, k1 ^^^ 0x646f72616e646f6d,
     k0 ^^^ 0x6c7967656e657261, k1 ^^^ 0x7465646279746573⟩
  sipBlocks st bs.length bs

/-- From lib.rs: `fn hash<H: Hash + ?Sized>(v: &H) -> u64` with
`DefaultHasher::new()`. Instantiated at strings: `Hash for str` writes the
UTF-8 bytes followed by a single 0xff terminator byte, and `finish()` returns
the SipHash-1-3 digest of that stream. -/
def hash (s : Str) : Nat :=
  hashBytes (strBytes s ++ [0xff])

/-- From handler.rs: `pub type HandlerKey = u64;`. -/
abbrev HandlerKey := Nat

/-- Rust's `Arc<T>`: a reference-counted handle to one heap allocation.
The embedding records the identity of the allocation (`allocId`) next to the
stored value; `Arc::new` creates a fresh allocation, `Arc::clone` returns a
handle with the same identity, copying nothing. -/
structure Arc (α : Type) where
  allocId : Nat
  value : α
deriving DecidableEq

/-- `Arc::clone`: the same handle, no new allocation. -/
def Arc.clone {α : Type} (a : Arc α) : Arc α := a

/-- From handler.rs: `struct PhantomHandler<H, Msg> { handler: Arc<H>, _msg: PhantomData<Msg> }`.
`PhantomData<Msg>` is a zero-sized marker recording the erased message type;
the embedding reifies that type parameter as a token naming the message type. -/
structure PhantomHandler (Svc : Type) where
  handler : Arc Svc
  _msg : Str
deriving DecidableEq

/-- From handler.rs: `struct ServiceRegistry<Svc> { handlers: BTreeMap<HandlerKey, Arc<dyn OpaqueMessageHandler>>, service: Arc<Svc> }`.
The `BTreeMap` is modelled by its lookup function; within one registry every
stored trait object is a `PhantomHandler<Svc, Msg>` whose only runtime content
is the service handle and the erased message type. -/
structure ServiceRegistry (Svc : Type) where
  handlers : HandlerKey → Option (PhantomHandler Svc)
  service : Arc Svc

/-- `BTreeMap::insert`: the binding for `k` is replaced, every other binding
is unchanged, and the previous value (if any) is discarded. -/
def mapInsert {α : Type} (k : HandlerKey) (v : α) (m : HandlerKey → Option α) :
    HandlerKey → Option α :=
  fun q => if q = k then some v else m q

/-- From handler.rs: `ServiceRegistry::new(service)` — the only place the
service is wrapped in an `Arc`. The allocation counter is threaded explicitly:
`new` consumes exactly one fresh allocation identity. -/
def ServiceRegistry.new {Svc : Type} (service : Svc) (fresh : Nat) :
    ServiceRegistry Svc × Nat :=
  ({ handlers := fun _ => none, service := ⟨fresh, service⟩ }, fresh + 1)

/-- From handler.rs: `ServiceRegistry::add_handler::<Msg>()`. The Rust method
reads `Svc::service_name()` and `<Svc as Handler<Msg>>::path()` (associated
items of the statically known types, passed here as the `service_name` and
`path` arguments; their defaults are the compiler intrinsic
`std::any::type_name`), builds `PhantomHandler { handler: self.service.clone(), _msg: PhantomData::<Msg> }`
(the `msg` argument reifies `Msg`), and inserts it at
`hash(to_uri_path(service_name, path))`. -/
def ServiceRegistry.add_handler {Svc : Type} (reg : ServiceRegistry Svc)
    (service_name msg path : Str) : ServiceRegistry Svc :=
  let phantom : PhantomHandler Svc := { handler := reg.service.clone, _msg := msg }
  let uri := to_uri_path service_name path
  { reg with handlers := mapInsert (hash uri) phantom reg.handlers }

/-- From handler.rs: `ServiceRegistry::into_handlers(self)` returns the map. -/
def ServiceRegistry.into_handlers {Svc : Type} (reg : ServiceRegistry Svc) :
    HandlerKey → Option (PhantomHandler Svc) :=
  reg.handlers

/-- A registration phase: a sequence of `add_handler` calls, each given by the
triple (service name, message-type token, handler path). -/
def register_all {Svc : Type} (reg : ServiceRegistry Svc)
    (calls : List (Str × Str × Str)) : ServiceRegistry Svc :=
  calls.foldl (fun r c => r.add_handler c.1 c.2.1 c.2.2) reg

/-- Modelled from the spec: net.rs is not under src/; the Status type is a
closed enumeration of failure kinds (not-found, invalid-payload,
handler-failure, internal) carrying an optional human-readable message. -/
inductive ErrorCode where
  | notFound
  | invalidPayload
  | handlerFailure
  | internal
deriving DecidableEq

/-- Modelled from the spec: a Status is one of the closed set of kinds plus a
message string. -/
structure Status where
  code : ErrorCode
  message : Str
deriving DecidableEq

/-- Wire bytes (`Body` in body.rs, not under src/): a byte sequence. -/
abbrev Body := List Nat

/-- Remote peer address; its content is never inspected by the dispatch core,
so it is modelled as an opaque token. -/
abbrev SocketAddr := Nat

/-- Header multimap; its content is never inspected by the dispatch core. -/
abbrev HeaderMap := List (Str × Str)

/-- From request.rs (re-exported in lib.rs): the request envelope wrapping the
remote address, the headers and the validated view. -/
structure Request (View : Type) where
  remote_addr : SocketAddr
  headers : HeaderMap
  view : View

/-- `Request::new(remote_addr, headers, view)`. -/
def Request.new {View : Type} (remote_addr : SocketAddr) (headers : HeaderMap)
    (view : View) : Request View :=
  ⟨remote_addr, headers, view⟩

/-- From handler.rs: `PhantomHandler::try_handle(remote_addr, headers, body)`:
`let view = Msg::from_body(body).await?;`
`let msg = Request::new(remote_addr, headers, view);`
`self.handler.on_message(msg).await.and_then(|reply| reply.try_into_body())`.
The trait methods `Msg::from_body` (RequestContents), `on_message` (Handler)
and `try_into_body` (TryIntoBody) resolve per concrete type and are passed as
function arguments. -/
def try_handle {View Reply : Type}
    (from_body : Body → Except Status View)
    (on_message : Request View → Except Status Reply)
    (try_into_body : Reply → Except Status Body)
    (remote_addr : SocketAddr) (headers : HeaderMap) (body : Body) :
    Except Status Body :=
  match from_body body with
  | Except.error status => Except.error status
  | Except.ok view =>
      let msg := Request.new remote_addr headers view
      match on_message msg with
      | Except.error status => Except.error status
      | Except.ok reply => try_into_body reply

/-- Modelled from the spec: `RequestContents::from_body` (request.rs is not
under src/) attempts to validate the body bytes as a view of the message type;
validation failure (malformed or corrupt bytes, schema mismatch) yields an
invalid-payload Status and the view is never produced. -/
def from_body_of {View : Type} (validate : Body → Option View) (body : Body) :
    Except Status View :=
  match validate body with
  | some view => Except.ok view
  | none => Except.error ⟨ErrorCode.invalidPayload, "invalid message payload".toList⟩

/-- Modelled from the spec: `TryIntoBody` (body.rs is not under src/) converts
a reply value to wire bytes; conversion failure (reply too large, encoding
error) yields an internal Status. -/
def try_into_body_of {Reply : Type} (encode : Reply → Option Body) (reply : Reply) :
    Except Status Body :=
  match encode reply with
  | some b => Except.ok b
  | none => Except.error ⟨ErrorCode.internal, "failed to encode reply".toList⟩

/-- Modelled from the spec: characters that are invalid inside a URI path
segment. The routing string format is "/{service}/{path}", so the separator
'/' cannot validly occur inside a segment; the spec names the angle brackets
of generic type names as further examples. -/
def invalid_in_segment (c : Char) : Bool :=
  c = '/' ∨ c = '<' ∨ c = '>'

/-! ### Helper lemmas -/

/-- All four hasher lanes fit in 64 bits. -/
def SipState.Bounded (s : SipState) : Prop :=
  s.v0 < 2 ^ 64 ∧ s.v1 < 2 ^ 64 ∧ s.v2 < 2 ^ 64 ∧ s.v3 < 2 ^ 64

theorem add64_lt (x y : Nat) : add64 x y < 2 ^ 64 :=
  Nat.mod_lt _ (by norm_num)

theorem rotl64_lt {x : Nat} (r : Nat) (h : x < 2 ^ 64) : rotl64 x r < 2 ^ 64 :=
  Nat.or_lt_two_pow (Nat.mod_lt _ (by norm_num))
    (lt_of_le_of_lt
      (by rw [Nat.shiftRight_eq_div_pow]; exact Nat.div_le_self _ _) h)

theorem le64_lt (bs : List Nat) : le64 bs < 2 ^ 64 :=
  Nat.mod_lt _ (by norm_num)

theorem sipRound_bounded {st : SipState} (h : st.Bounded) : (sipRound st).Bounded := by
  obtain ⟨h0, h1, h2, h3⟩ := h
  simp only [sipRound, SipState.Bounded]
  refine ⟨?_, ?_, ?_, ?_⟩ <;>
    (repeat' first
      | exact h0
      | exact h1
      | exact h2
      | exact h3
      | apply add64_lt
      | apply rotl64_lt
      | apply Nat.xor_lt_two_pow)

theorem sipCompress_bounded {st : SipState} {m : Nat} (h : st.Bounded)
    (hm : m < 2 ^ 64) : (sipCompress st m).Bounded := by
  obtain ⟨h0, h1, h2, h3⟩ := h
  have habs : SipState.Bounded ⟨st.v0, st.v1, st.v2, st.v3 ^^^ m⟩ :=
    ⟨h0, h1, h2, Nat.xor_lt_two_pow h3 hm⟩
  have hrd := sipRound_bounded habs
  exact ⟨Nat.xor_lt_two_pow hrd.1 hm, hrd.2.1, hrd.2.2.1, hrd.2.2.2⟩

theorem sipFinish_lt (st : SipState) (len : Nat) (rest : List Nat)
    (h : st.Bounded) : sipFinish st len rest < 2 ^ 64 := by
  have hb : (((len % 256) <<< 56) ||| le64 rest) % 2 ^ 64 < 2 ^ 64 :=
    Nat.mod_lt _ (by norm_num)
  have hc := sipCompress_bounded h hb
  have habs : SipState.Bounded
      ⟨(sipCompress st ((((len % 256) <<< 56) ||| le64 rest) % 2 ^ 64)).v0,
       (sipCompress st ((((len % 256) <<< 56) ||| le64 rest) % 2 ^ 64)).v1,
       (sipCompress st ((((len % 256) <<< 56) ||| le64 rest) % 2 ^ 64)).v2 ^^^ 0xff,
       (sipCompress st ((((len % 256) <<< 56) ||| le64 rest) % 2 ^ 64)).v3⟩ :=
    ⟨hc.1, hc.2.1, Nat.xor_lt_two_pow hc.2.2.1 (by norm_num), hc.2.2.2⟩
  have hrd := sipRound_bounded (sipRound_bounded (sipRound_bounded habs))
  exact Nat.xor_lt_two_pow (Nat.xor_lt_two_pow hrd.1 hrd.2.1)
    (Nat.xor_lt_two_pow hrd.2.2.1 hrd.2.2.2)

theorem sipBlocks_lt :
    ∀ (bs : List Nat) (st : SipState) (len : Nat),
      st.Bounded → sipBlocks st len bs < 2 ^ 64
  | [], st, len, h => sipFinish_lt st len _ h
  | [_], st, len, h => sipFinish_lt st len _ h
  | [_, _], st, len, h => sipFinish_lt st len _ h
  | [_, _, _], st, len, h => sipFinish_lt st len _ h
  | [_, _, _, _], st, len, h => sipFinish_lt st len _ h
  | [_, _, _, _, _], st, len, h => sipFinish_lt st len _ h
  | [_, _, _, _, _, _], st, len, h => sipFinish_lt st len _ h
  | [_, _, _, _, _, _, _], st, len, h => sipFinish_lt st len _ h
  | _ :: _ :: _ :: _ :: _ :: _ :: _ :: _ :: rest, _, len, h =>
      sipBlocks_lt rest _ len (sipCompress_bounded h (le64_lt _))

theorem hash_lt (s : Str) : hash s < 2 ^ 64 := by
  unfold hash hashBytes
  exact sipBlocks_lt _ _ _ ⟨by norm_num, by norm_num, by norm_num, by norm_num⟩

theorem add_handler_handlers {Svc : Type} (reg : ServiceRegistry Svc)
    (service_name msg path : Str) (k : HandlerKey) :
    (reg.add_handler service_name msg path).handlers k
      = if k = hash (to_uri_path service_name path)
        then some ⟨reg.service, msg⟩
        else reg.handlers k := rfl

theorem add_handler_service {Svc : Type} (reg : ServiceRegistry Svc)
    (service_name msg path : Str) :
    (reg.add_handler service_name msg path).service = reg.service := rfl

theorem register_all_service {Svc : Type} :
    ∀ (calls : List (Str × Str × Str)) (reg : ServiceRegistry Svc),
      (register_all reg calls).service = reg.service
  | [], _ => rfl
  | c :: cs, reg => register_all_service cs (reg.add_handler c.1 c.2.1 c.2.2)

theorem register_all_adapters {Svc : Type} (a : Arc Svc) :
    ∀ (calls : List (Str × Str × Str)) (reg : ServiceRegistry Svc),
      reg.service = a →
      (∀ k ph, reg.handlers k = some ph → ph.handler = a) →
      ∀ k ph, (register_all reg calls).handlers k = some ph → ph.handler = a := by
  intro calls
  induction calls with
  | nil => intro reg _ h k ph hk; exact h k ph hk
  | cons c cs ih =>
      intro reg hsvc h k ph hk
      refine ih (reg.add_handler c.1 c.2.1 c.2.2) hsvc ?_ k ph hk
      intro q qh hq
      rw [add_handler_handlers] at hq
      by_cases hcase : q = hash (to_uri_path c.1 c.2.2)
      · rw [if_pos hcase] at hq
        cases hq
        exact hsvc
      · rw [if_neg hcase] at hq
        exact h q qh hq

/-! ### Claim theorems -/

/-- C2: for every service type and message type, add_handler stores the newly
constructed adapter (closing over the shared service handle and the message
type) under the key hash(to_uri_path(service name, handler path)) — the 64-bit
hash of the string "/{sanitized service name}/{sanitized handler path}". The
default service name and handler path are the respective type names (the
compiler intrinsic std::any::type_name, a trait-method default either side can
override), passed here as the service_name and path arguments. -/
theorem add_handler_stores_at_key {Svc : Type} (reg : ServiceRegistry Svc)
    (service_name msg path : Str) :
    (reg.add_handler service_name msg path).handlers
        (hash (to_uri_path service_name path))
      = some ⟨reg.service, msg⟩ := by
  simp [ServiceRegistry.add_handler, mapInsert, Arc.clone]

/-- C3: hash(to_uri_path s p) is a deterministic, total, pure function of its
string inputs: it is defined for all strings, any two evaluations on the same
inputs agree, and the result is a 64-bit key. The hasher keys are the fixed
constants (0, 0) of DefaultHasher::new — no randomized seed occurs in the
definition. -/
theorem hash_uri_deterministic_total (s p : Str) :
    hash (to_uri_path s p) = hash (to_uri_path s p)
    ∧ hash (to_uri_path s p) < 2 ^ 64 :=
  ⟨rfl, hash_lt _⟩

/-- C5: when the routing key of a message type is already present in the
registry, add_handler overwrites the previous entry with the newly constructed
adapter (last write wins) without any error channel, leaves every other key
untouched, and subsequent lookups on the key see only the new adapter. -/
theorem add_handler_last_write_wins {Svc : Type} (reg : ServiceRegistry Svc)
    (service_name msg path : Str) (old : PhantomHandler Svc)
    (hpresent : reg.handlers (hash (to_uri_path service_name path)) = some old) :
    (reg.add_handler service_name msg path).handlers
        (hash (to_uri_path service_name path))
      = some ⟨reg.service, msg⟩
    ∧ ∀ k, k ≠ hash (to_uri_path service_name path) →
        (reg.add_handler service_name msg path).handlers k = reg.handlers k := by
  constructor
  · simp [ServiceRegistry.add_handler, mapInsert, Arc.clone]
  · intro k hk
    rw [add_handler_handlers, if_neg hk]

/-- C7 counterexample: the claim that the sanitizer replaces every character
invalid in a path segment is false at the concrete input "a/b": the character
'/' is invalid inside a path segment (it is the segment separator of the
routing string itself), yet sanitise leaves it unchanged rather than
substituting the filler '-'. -/
theorem sanitise_claim_counterexample :
    invalid_in_segment '/' = true
    ∧ sanitise "a/b".toList = "a/b".toList
    ∧ ('/' : Char) ≠ '-' := by
  refine ⟨by decide, by decide, by decide⟩

/-- C7 amended: the sanitizer replaces exactly the two angle-bracket
characters < and > (which appear in generic type names) with the filler '-',
and leaves every other character unchanged — including characters such as '/'
that are also invalid in a path segment. -/
theorem sanitise_replaces_exactly_angle_brackets (p : Str) :
    sanitise p = p.map (fun c => if c = '<' ∨ c = '>' then '-' else c) := by
  induction p with
  | nil => rfl
  | cons c cs ih =>
      simp only [sanitise, List.map_cons, List.flatten_cons] at ih ⊢
      by_cases h : c = '<' ∨ c = '>' <;> simp [h, ih]

/-- C8: when two registered handlers with distinct (service name, handler
path) pairs map to the same 64-bit key, the second registration silently
replaces the first's routing-table entry: after both calls the shared key
holds only the second adapter, the first adapter is gone from that key, and
no error is raised at registration time (add_handler has no error channel). -/
theorem collision_overwrites_silently {Svc : Type} (reg : ServiceRegistry Svc)
    (sn₁ msg₁ p₁ sn₂ msg₂ p₂ : Str)
    (hdistinct : (sn₁, p₁) ≠ (sn₂, p₂))
    (hcollide : hash (to_uri_path sn₁ p₁) = hash (to_uri_path sn₂ p₂)) :
    ((reg.add_handler sn₁ msg₁ p₁).add_handler sn₂ msg₂ p₂).handlers
        (hash (to_uri_path sn₁ p₁))
      = some ⟨reg.service, msg₂⟩
    ∧ (msg₁ ≠ msg₂ →
        ((reg.add_handler sn₁ msg₁ p₁).add_handler sn₂ msg₂ p₂).handlers
            (hash (to_uri_path sn₁ p₁))
          ≠ some ⟨reg.service, msg₁⟩) := by
  have hmain :
      ((reg.add_handler sn₁ msg₁ p₁).add_handler sn₂ msg₂ p₂).handlers
          (hash (to_uri_path sn₁ p₁))
        = some ⟨reg.service, msg₂⟩ := by
    rw [add_handler_handlers, if_pos hcollide, add_handler_service]
  refine ⟨hmain, fun hne hfirst => hne ?_⟩
  rw [hmain] at hfirst
  cases hfirst
  rfl

/-- C9: to_uri_path is not injective even before hashing: '/' is not
sanitised out of the inputs, so the distinct pairs ("a", "b/c") and
("a/b", "c") produce the identical routing string and hence the identical
handler key without any hash collision. -/
theorem to_uri_path_not_injective :
    ("a".toList, "b/c".toList) ≠ ("a/b".toList, "c".toList)
    ∧ to_uri_path "a".toList "b/c".toList = to_uri_path "a/b".toList "c".toList
    ∧ hash (to_uri_path "a".toList "b/c".toList)
        = hash (to_uri_path "a/b".toList "c".toList)
    ∧ sanitise "b/c".toList = "b/c".toList :=
  ⟨by decide, by decide, rfl, by decide⟩

/-- C1: when validation of the body fails (Msg::from_body returns an error),
try_handle returns an invalid-payload failure, and the service's on_message
handler is never invoked: the outcome is identical for any two handlers and
any two reply encoders. -/
theorem try_handle_validation_failure {View Reply : Type}
    (validate : Body → Option View)
    (remote_addr : SocketAddr) (headers : HeaderMap) (body : Body)
    (hfail : validate body = none) :
    (∀ (on_message : Request View → Except Status Reply)
       (try_into_body : Reply → Except Status Body),
        ∃ s : Status,
          try_handle (from_body_of validate) on_message try_into_body
              remote_addr headers body
            = Except.error s
          ∧ s.code = ErrorCode.invalidPayload)
    ∧ ∀ (om₁ om₂ : Request View → Except Status Reply)
        (enc₁ enc₂ : Reply → Except Status Body),
        try_handle (from_body_of validate) om₁ enc₁ remote_addr headers body
          = try_handle (from_body_of validate) om₂ enc₂ remote_addr headers body := by
  constructor
  · intro on_message try_into_body
    refine ⟨⟨ErrorCode.invalidPayload, "invalid message payload".toList⟩, ?_, rfl⟩
    simp [try_handle, from_body_of, hfail]
  · intro om₁ om₂ enc₁ enc₂
    simp [try_handle, from_body_of, hfail]

theorem try_handle_validation_failure_witness :
    (∃ s : Status,
        @try_handle Unit Unit
            (from_body_of (fun _ => none)) (fun _ => Except.ok ())
            (fun _ => Except.ok []) 0 [] []
          = Except.error s
        ∧ s.code = ErrorCode.invalidPayload)
    ∧ @try_handle Unit Unit
          (from_body_of (fun _ => none)) (fun _ => Except.ok ())
          (fun _ => Except.ok []) 0 [] []
        = @try_handle Unit Unit
          (from_body_of (fun _ => none))
          (fun _ => Except.error ⟨ErrorCode.internal, []⟩)
          (fun _ => Except.error ⟨ErrorCode.internal, []⟩) 0 [] [] :=
  ⟨(try_handle_validation_failure (fun _ => none) 0 [] [] rfl).1 _ _,
   (try_handle_validation_failure (fun _ => none) 0 [] [] rfl).2 _ _ _ _⟩

/-- C4: when validation succeeds and the handler's on_message returns an error
Status, try_handle returns exactly that Status unchanged, and no reply
encoding is performed: the outcome is identical for any two reply encoders. -/
theorem try_handle_propagates_handler_status {View Reply : Type}
    (from_body : Body → Except Status View)
    (on_message : Request View → Except Status Reply)
    (remote_addr : SocketAddr) (headers : HeaderMap) (body : Body)
    (view : View) (s : Status)
    (hview : from_body body = Except.ok view)
    (hstatus : on_message (Request.new remote_addr headers view) = Except.error s) :
    ∀ enc₁ enc₂ : Reply → Except Status Body,
      try_handle from_body on_message enc₁ remote_addr headers body
        = Except.error s
      ∧ try_handle from_body on_message enc₁ remote_addr headers body
        = try_handle from_body on_message enc₂ remote_addr headers body := by
  intro enc₁ enc₂
  constructor <;> simp [try_handle, hview, hstatus]

theorem try_handle_propagates_handler_status_witness :
    @try_handle Unit Unit
        (fun _ => Except.ok ())
        (fun _ => Except.error ⟨ErrorCode.handlerFailure, "denied".toList⟩)
        (fun _ => Except.ok []) 0 [] []
      = Except.error ⟨ErrorCode.handlerFailure, "denied".toList⟩
    ∧ @try_handle Unit Unit (fun _ => Except.ok ())
        (fun _ => Except.error ⟨ErrorCode.handlerFailure, "denied".toList⟩)
        (fun _ => Except.ok []) 0 [] []
      = @try_handle Unit Unit (fun _ => Except.ok ())
        (fun _ => Except.error ⟨ErrorCode.handlerFailure, "denied".toList⟩)
        (fun _ => Except.error ⟨ErrorCode.internal, []⟩) 0 [] [] :=
  try_handle_propagates_handler_status (fun _ => Except.ok ())
    (fun _ => Except.error ⟨ErrorCode.handlerFailure, "denied".toList⟩)
    0 [] [] () ⟨ErrorCode.handlerFailure, "denied".toList⟩ rfl rfl _ _

/-- C6: when validation succeeds, the handler returns Ok(reply), and the
conversion of the reply to wire bytes fails, try_handle returns an
internal-kind failure — not the not-found, invalid-payload, or
handler-failure kinds. -/
theorem try_handle_encoding_failure_internal {View Reply : Type}
    (from_body : Body → Except Status View)
    (on_message : Request View → Except Status Reply)
    (encode : Reply → Option Body)
    (remote_addr : SocketAddr) (headers : HeaderMap) (body : Body)
    (view : View) (reply : Reply)
    (hview : from_body body = Except.ok view)
    (hreply : on_message (Request.new remote_addr headers view) = Except.ok reply)
    (henc : encode reply = none) :
    ∃ s : Status,
      try_handle from_body on_message (try_into_body_of encode)
          remote_addr headers body
        = Except.error s
      ∧ s.code = ErrorCode.internal
      ∧ s.code ≠ ErrorCode.notFound
      ∧ s.code ≠ ErrorCode.invalidPayload
      ∧ s.code ≠ ErrorCode.handlerFailure := by
  refine ⟨⟨ErrorCode.internal, "failed to encode reply".toList⟩, ?_,
    rfl, by decide, by decide, by decide⟩
  simp [try_handle, try_into_body_of, hview, hreply, henc]

theorem try_handle_encoding_failure_internal_witness :
    ∃ s : Status,
      @try_handle Unit Unit
          (fun _ => Except.ok ()) (fun _ => Except.ok ())
          (try_into_body_of (fun _ => none)) 0 [] []
        = Except.error s
      ∧ s.code = ErrorCode.internal
      ∧ s.code ≠ ErrorCode.notFound
      ∧ s.code ≠ ErrorCode.invalidPayload
      ∧ s.code ≠ ErrorCode.handlerFailure :=
  try_handle_encoding_failure_internal (fun _ => Except.ok ())
    (fun _ => Except.ok ()) (fun _ => none) 0 [] [] () () rfl rfl rfl

/-- C10: every adapter created through one ServiceRegistry closes over the
same single service instance: new wraps the service in a reference-counted
handle exactly once (consuming exactly one fresh allocation identity), and
after any sequence of add_handler calls every stored adapter's handle is that
one shared handle — no per-handler copy of the service is ever made. -/
theorem adapters_share_one_service {Svc : Type} (service : Svc) (fresh : Nat)
    (calls : List (Str × Str × Str)) (k : HandlerKey) (ph : PhantomHandler Svc)
    (hlookup : (register_all (ServiceRegistry.new service fresh).1 calls).handlers k
        = some ph) :
    ph.handler = (register_all (ServiceRegistry.new service fresh).1 calls).service
    ∧ (register_all (ServiceRegistry.new service fresh).1 calls).service
        = ⟨fresh, service⟩
    ∧ (ServiceRegistry.new service fresh).2 = fresh + 1 := by
  have hsvc : (register_all (ServiceRegistry.new service fresh).1 calls).service
      = ⟨fresh, service⟩ := register_all_service calls _
  refine ⟨?_, hsvc, rfl⟩
  rw [hsvc]
  exact register_all_adapters ⟨fresh, service⟩ calls _ rfl
    (fun _ _ h => by simp [ServiceRegistry.new] at h) k ph hlookup

theorem adapters_share_one_service_witness :
    (let reg := register_all (ServiceRegistry.new () 0).1
        [("svc".toList, "Msg".toList, "path".toList)]
     reg.handlers (hash (to_uri_path "svc".toList "path".toList))
        = some ⟨⟨0, ()⟩, "Msg".toList⟩)
    ∧ (⟨⟨0, ()⟩, "Msg".toList⟩ : PhantomHandler Unit).handler
        = (register_all (ServiceRegistry.new () 0).1
            [("svc".toList, "Msg".toList, "path".toList)]).service
    ∧ (register_all (ServiceRegistry.new () 0).1
          [("svc".toList, "Msg".toList, "path".toList)]).service = ⟨0, ()⟩
    ∧ (ServiceRegistry.new () 0).2 = 0 + 1 :=
  ⟨by simp [register_all, ServiceRegistry.new, ServiceRegistry.add_handler,
      mapInsert, Arc.clone],
   adapters_share_one_service () 0 [("svc".toList, "Msg".toList, "path".toList)]
      (hash (to_uri_path "svc".toList "path".toList)) ⟨⟨0, ()⟩, "Msg".toList⟩
      (by simp [register_all, ServiceRegistry.new, ServiceRegistry.add_handler,
        mapInsert, Arc.clone])⟩

theorem add_handler_last_write_wins_witness :
    (((ServiceRegistry.new () 0).1.add_handler "svc".toList "Msg1".toList
          "path".toList).add_handler "svc".toList "Msg2".toList
          "path".toList).handlers (hash (to_uri_path "svc".toList "path".toList))
      = some ⟨⟨0, ()⟩, "Msg2".toList⟩
    ∧ (((ServiceRegistry.new () 0).1.add_handler "svc".toList "Msg1".toList
          "path".toList).add_handler "svc".toList "Msg2".toList
          "path".toList).handlers (1 + hash (to_uri_path "svc".toList "path".toList))
      = ((ServiceRegistry.new () 0).1.add_handler "svc".toList "Msg1".toList
          "path".toList).handlers (1 + hash (to_uri_path "svc".toList "path".toList)) :=
  ⟨(add_handler_last_write_wins
      ((ServiceRegistry.new () 0).1.add_handler "svc".toList "Msg1".toList "path".toList)
      "svc".toList "Msg2".toList "path".toList ⟨⟨0, ()⟩, "Msg1".toList⟩
      (by simp [ServiceRegistry.new, ServiceRegistry.add_handler, mapInsert,
        Arc.clone])).1,
   (add_handler_last_write_wins
      ((ServiceRegistry.new () 0).1.add_handler "svc".toList "Msg1".toList "path".toList)
      "svc".toList "Msg2".toList "path".toList ⟨⟨0, ()⟩, "Msg1".toList⟩
      (by simp [ServiceRegistry.new, ServiceRegistry.add_handler, mapInsert,
        Arc.clone])).2 _
      (by omega : 1 + hash (to_uri_path "svc".toList "path".toList)
        ≠ hash (to_uri_path "svc".toList "path".toList))⟩

theorem collision_overwrites_silently_witness :
    (((ServiceRegistry.new () 0).1.add_handler "a".toList "M1".toList
          "b/c".toList).add_handler "a/b".toList "M2".toList "c".toList).handlers
        (hash (to_uri_path "a".toList "b/c".toList))
      = some ⟨⟨0, ()⟩, "M2".toList⟩
    ∧ (((ServiceRegistry.new () 0).1.add_handler "a".toList "M1".toList
          "b/c".toList).add_handler "a/b".toList "M2".toList "c".toList).handlers
        (hash (to_uri_path "a".toList "b/c".toList))
      ≠ some ⟨⟨0, ()⟩, "M1".toList⟩ :=
  ⟨(collision_overwrites_silently (ServiceRegistry.new () 0).1
      "a".toList "M1".toList "b/c".toList "a/b".toList "M2".toList "c".toList
      (by decide) rfl).1,
   (collision_overwrites_silently (ServiceRegistry.new () 0).1
      "a".toList "M1".toList "b/c".toList "a/b".toList "M2".toList "c".toList
      (by decide) rfl).2 (by decide)⟩

end Datacake
